import Mathlib

/-!
Shallow embedding of the interview-flow logic of the MoonLight backend
(`app/services/interview_flow_service.py`, `app/api/v1/interview_message.py`,
`app/schemas/interview.py`, `app/services/interview_service.py`,
`app/core/database.py`) and theorems checking the specification's claims.
-/

namespace MoonLight

/-- Column values of an `InterviewMessage` ORM row (`models/interview.py`) that
the flow logic reads: `role` ("user" / "ai"), `content`, `round`, and the value
stored under `meta_info["triggered_transition"]` (if any). -/
structure InterviewMessage where
  role : String
  content : String
  round : String
  meta_info : Option String
deriving DecidableEq, Repr

/-- The fields of an `InterviewSession` ORM row read by the message endpoints
and the flow service: `id`, `user_id`, `status`, `current_round`. -/
structure InterviewSession where
  id : Nat
  user_id : Nat
  status : String
  current_round : String
deriving DecidableEq, Repr

/-- `InterviewConfig.INTERVIEW_ROUNDS` (`schemas/interview.py`). -/
def INTERVIEW_ROUNDS : List String :=
  ["opening", "self_intro", "qa", "reverse_qa", "closing"]

/-- `InterviewConfig.ROUND_DISPLAY_NAMES` (`schemas/interview.py`). -/
def ROUND_DISPLAY_NAMES : String → Option String
  | "opening" => some "开场白"
  | "self_intro" => some "自我介绍"
  | "qa" => some "核心问答"
  | "reverse_qa" => some "反问环节"
  | "closing" => some "结束"
  | _ => none

/-- `InterviewFlowService.ROUND_MESSAGE_LIMITS`: per-round `(min, max)` counts
of candidate replies. -/
def ROUND_MESSAGE_LIMITS : String → Option (Nat × Nat)
  | "opening" => some (0, 0)
  | "self_intro" => some (1, 3)
  | "qa" => some (5, 10)
  | "reverse_qa" => some (0, 5)
  | "closing" => some (0, 0)
  | _ => none

/-- `InterviewFlowService.ROUND_TRANSITION_MARKERS`, with the `dict.get(r, [])`
lookup folded in (`closing` and unknown rounds have no marker list). -/
def ROUND_TRANSITION_MARKERS : String → List String
  | "opening" =>
      ["[NEXT:self_intro]", "请开始自我介绍", "请开始你的自我介绍", "请先介绍一下", "请先介绍"]
  | "self_intro" =>
      ["[NEXT:qa]", "接下来进入技术问答", "让我们开始技术问题", "进入技术问答", "开始技术问题"]
  | "qa" =>
      ["[NEXT:reverse_qa]", "你有什么问题要问我吗", "你有什么问题想问", "反问环节", "你有什么想了解"]
  | "reverse_qa" =>
      ["[NEXT:closing]", "面试到此结束", "今天的面试就到这里", "面试结束", "感谢你的参与"]
  | _ => []

/-- Python `list.index(x)` as used on `INTERVIEW_ROUNDS`: index of the first
occurrence, `none` when absent (the `ValueError` case). -/
def listIndex (l : List String) (x : String) : Option Nat :=
  match l with
  | [] => none
  | a :: as => if a = x then some 0 else (listIndex as x).map (· + 1)

/-- `needle` occurs as a contiguous sublist of `hay`. -/
def listContains (needle : List Char) : List Char → Bool
  | [] => needle.isEmpty
  | a :: as => needle.isPrefixOf (a :: as) || listContains needle as

/-- Python substring test `needle in hay` on strings. -/
def strContains (hay needle : String) : Bool :=
  listContains needle.toList hay.toList

/-- Python truthiness of an `Optional[str]`: `None` and `""` are falsy. -/
def optStrTruthy : Option String → Bool
  | none => false
  | some s => !(s == "")

/-- `InterviewFlowService.should_transition_to_next_round`
(`interview_flow_service.py` lines 71-142). The marker `for` loop returns
`(True, next_round)` on the first match, which is the same result for every
match, so it is folded into `List.any`. -/
def should_transition_to_next_round (session : InterviewSession)
    (messages : List InterviewMessage) (ai_response : Option String) :
    Bool × String :=
  let current_round := session.current_round
  let rounds := INTERVIEW_ROUNDS
  match listIndex rounds current_round with
  | none => (false, current_round)
  | some current_index =>
    if rounds.length - 1 ≤ current_index then
      (false, current_round)
    else
      let next_round := rounds.getD (current_index + 1) current_round
      if optStrTruthy ai_response &&
          (ROUND_TRANSITION_MARKERS current_round).any
            (fun marker => strContains (ai_response.getD "") marker) then
        (true, next_round)
      else
        let user_message_count :=
          messages.countP (fun msg => msg.role == "user" && msg.round == current_round)
        let max_messages := ((ROUND_MESSAGE_LIMITS current_round).getD (0, 999)).2
        if max_messages ≤ user_message_count ∧ 0 < max_messages then
          (true, next_round)
        else
          (false, current_round)

/-- `InterviewFlowService.get_round_instruction` (`interview_flow_service.py`
lines 144-207): the per-round instruction text, `""` for unknown rounds. -/
def get_round_instruction (round_name : String) : String :=
  match round_name with
  | "opening" =>
      "当前是【开场白】轮次。\n\n【任务】\n请做简短的开场白（1-2句话），介绍面试流程，然后请候选人自我介绍。\n\n【重要】\n结束时必须说：\"请开始你的自我介绍。\"（这句话会触发轮次切换）"
  | "self_intro" =>
      "当前是【自我介绍】轮次。\n\n【任务】\n请听候选人自我介绍，根据简历内容进行追问（0-2个问题）。\n\n【进度】\n- 最少需要 1 次候选人回复（自我介绍）\n- 最多 3 次回复（自我介绍 + 2个追问）\n\n【切换条件】\n追问结束后，必须说：\"接下来我们进入技术问答环节。\"（触发切换）"
  | "qa" =>
      "当前是【核心问答】轮次。\n\n【任务】\n根据面试模式进行技术提问，每次只问一个问题。\n\n【进度】\n- 最少需要 5 个问答\n- 最多 10 个问答\n\n【切换条件】\n问完后，必须说：\"你有什么问题要问我吗？\"（触发切换）"
  | "reverse_qa" =>
      "当前是【反问环节】。\n\n【任务】\n让候选人提问，回答他们关于公司、团队、岗位的问题。\n\n【进度】\n- 最少 0 个问题\n- 最多 5 个问题\n\n【切换条件】\n回答完问题后，必须说：\"今天的面试就到这里，感谢你的参与。\"（触发切换）"
  | "closing" =>
      "当前是【结束】轮次。\n\n【任务】\n做简短的结束语，告知候选人后续流程（如：HR 会在 X 天内联系你）。\n\n【注意】\n不要问新问题。"
  | _ => ""

/-- The dict returned by `InterviewFlowService.get_round_progress`. -/
structure RoundProgress where
  current_round : String
  current_round_display : String
  round_index : Nat
  total_rounds : Nat
  user_messages : Nat
  ai_messages : Nat
  min_messages : Nat
  max_messages : Nat
  progress : Nat
  can_transition : Bool
deriving DecidableEq, Repr

/-- `InterviewFlowService.get_round_progress` (`interview_flow_service.py`
lines 209-254). The unguarded `rounds.index(current_round)` raises
`ValueError` on an unknown round, modelled as `none`. Python's
`int(user_count / max_messages * 100)` (float divide, truncate toward zero)
coincides with natural-number division `user_count * 100 / max_messages` for
every count and every `max` occurring in `ROUND_MESSAGE_LIMITS` (3, 5, 10). -/
def get_round_progress (session : InterviewSession)
    (messages : List InterviewMessage) : Option RoundProgress :=
  let current_round := session.current_round
  let rounds := INTERVIEW_ROUNDS
  match listIndex rounds current_round with
  | none => none
  | some current_index =>
    let round_messages := messages.filter (fun msg => msg.round == current_round)
    let user_message_count := (round_messages.filter (fun msg => msg.role == "user")).length
    let ai_message_count := (round_messages.filter (fun msg => msg.role == "ai")).length
    let limits := (ROUND_MESSAGE_LIMITS current_round).getD (0, 0)
    let min_messages := limits.1
    let max_messages := limits.2
    let progress :=
      if 0 < max_messages then min 100 (user_message_count * 100 / max_messages)
      else if 0 < ai_message_count then 100 else 0
    some {
      current_round := current_round
      current_round_display := (ROUND_DISPLAY_NAMES current_round).getD current_round
      round_index := current_index + 1
      total_rounds := rounds.length
      user_messages := user_message_count
      ai_messages := ai_message_count
      min_messages := min_messages
      max_messages := max_messages
      progress := progress
      can_transition := decide (min_messages ≤ user_message_count)
    }

/-- `InterviewFlowService.transition_to_next_round` (`interview_flow_service.py`
lines 256-293). The persistence of the new `current_round` through
`InterviewSessionService.update` is the pure session update; the unguarded
`rounds.index` raises on an unknown round (`none`). -/
def transition_to_next_round (session : InterviewSession) : Option InterviewSession :=
  let rounds := INTERVIEW_ROUNDS
  match listIndex rounds session.current_round with
  | none => none
  | some current_index =>
    if current_index < rounds.length - 1 then
      let next_round := rounds.getD (current_index + 1) session.current_round
      some { session with current_round := next_round }
    else
      some session

/-- One entry of the prompt list built by `build_full_prompt`:
`{"role": ..., "content": ...}`. -/
structure PromptMessage where
  role : String
  content : String
deriving DecidableEq, Repr

/-- `InterviewFlowService.build_full_prompt` (`interview_flow_service.py`
lines 295-333). The f-string for `full_system` indexes `INTERVIEW_ROUNDS`
unguarded, so an unknown round raises (`none`). -/
def build_full_prompt (session : InterviewSession) (system_prompt : String)
    (messages : List InterviewMessage) : Option (List PromptMessage) :=
  let round_instruction := get_round_instruction session.current_round
  match listIndex INTERVIEW_ROUNDS session.current_round with
  | none => none
  | some idx =>
    let full_system :=
      system_prompt ++ "\n\n## 当前轮次指令\n" ++ round_instruction ++
        "\n\n## 轮次进度\n当前是第 " ++ toString (idx + 1) ++ " / " ++
        toString INTERVIEW_ROUNDS.length ++ " 轮\n"
    some ({ role := "system", content := full_system } ::
      messages.map (fun msg =>
        { role := if msg.role == "ai" then "assistant" else "user"
          content := msg.content }))

/-- Persistent store visible to one interview session's endpoints: the message
log (`interview_messages` rows of the session, in id order) and the session row. -/
structure DbStore where
  messages : List InterviewMessage
  session : InterviewSession
deriving DecidableEq, Repr

/-- A SQLAlchemy `AsyncSession` over the store: the committed state plus the
in-transaction (pending) state. `commit` publishes pending; `rollback` restores
committed (`app/core/database.py`). -/
structure Db where
  committed : DbStore
  pending : DbStore
deriving DecidableEq, Repr

def Db.commit (db : Db) : Db := { db with committed := db.pending }

def Db.rollback (db : Db) : Db := { db with pending := db.committed }

/-- `InterviewMessageService.create` (`interview_service.py` lines 287-321):
build the row, `db.add`, and `commit` immediately. -/
def InterviewMessageService.create (db : Db) (role content round : String)
    (meta_info : Option String) : InterviewMessage × Db :=
  let message : InterviewMessage :=
    { role := role, content := content, round := round, meta_info := meta_info }
  (message,
    Db.commit { db with pending := { db.pending with messages := db.pending.messages ++ [message] } })

/-- `InterviewMessageService.list_by_session` (`interview_service.py` lines
323-341): the session's messages ordered by id. -/
def InterviewMessageService.list_by_session (db : Db) : List InterviewMessage :=
  db.pending.messages

/-- The body of `send_message` (`interview_message.py` lines 74-193). External
effects are oracles: `resume_found` for the resume query and `llm` for
`client.chat_complete` (failures of `AIClientFactory.get_client` fold into
`llm`, both being caught by the same `except`). Returns the handler outcome —
`.ok` response or `.error` HTTPException detail — together with the db session
state at the return/raise point. -/
def send_message (db0 : Db) (session_id : Nat) (content : String)
    (current_user_id : Nat) (resume_found : Bool)
    (llm : Except String String) : Except String InterviewMessage × Db :=
  match (if db0.pending.session.id = session_id then some db0.pending.session else none) with
  | none => (.error "面试会话不存在", db0)
  | some session =>
    if session.user_id ≠ current_user_id then (.error "无权访问此面试会话", db0)
    else if session.status ≠ "ongoing" then (.error "面试已结束", db0)
    else
      let created := InterviewMessageService.create db0 "user" content session.current_round none
      let db1 := created.2
      let messages := InterviewMessageService.list_by_session db1
      if ¬ resume_found then (.error "关联简历不存在", db1)
      else
        match llm with
        | .error e => (.error ("AI 响应失败: " ++ e), db1)
        | .ok ai_response =>
          let sr := should_transition_to_next_round session messages (some ai_response)
          let meta_info : Option String := if sr.1 then some sr.2 else none
          let created2 :=
            InterviewMessageService.create db1 "ai" ai_response session.current_round meta_info
          let ai_message := created2.1
          let db2 := created2.2
          if sr.1 then
            match transition_to_next_round db2.pending.session with
            | none => (.error "AI 响应失败: ValueError", db2)
            | some s2 =>
                (.ok ai_message,
                  Db.commit { db2 with pending := { db2.pending with session := s2 } })
          else (.ok ai_message, db2)

/-- `send_message` wrapped in the `get_db` dependency (`database.py` lines
40-63): commit after a successful return, rollback when the handler raises. -/
def send_message_endpoint (db0 : Db) (session_id : Nat) (content : String)
    (current_user_id : Nat) (resume_found : Bool)
    (llm : Except String String) : Except String InterviewMessage × Db :=
  let r := send_message db0 session_id content current_user_id resume_found llm
  match r.1 with
  | .ok m => (.ok m, Db.commit r.2)
  | .error e => (.error e, Db.rollback r.2)

/-- A live ORM `InterviewMessage` instance: its column values together with the
identity of the `AsyncSession` that loaded it (the live object reference). -/
structure OrmMessageRef where
  value : InterviewMessage
  ownerSession : Nat
deriving DecidableEq, Repr

/-- One element of `messages_copy`: the plain dict
`{"role": msg.role, "content": msg.content, "round": msg.round}`. -/
structure MessageDict where
  role : String
  content : String
  round : String
deriving DecidableEq, Repr

/-- A message-list value as the streaming path could hand it to
`should_transition_to_next_round`: the live ORM list or the plain-value copy. -/
inductive PassedMessages where
  | liveOrm (ms : List OrmMessageRef)
  | plainValues (ms : List MessageDict)
deriving DecidableEq, Repr

/-- Attribute access `.role` / `.content` / `.round` on each element, as
`should_transition_to_next_round` performs it: on live ORM instances it yields
the column values (`expire_on_commit=False` keeps them loaded); on dicts it
would raise `AttributeError` (`none`). -/
def PassedMessages.attrValues : PassedMessages → Option (List InterviewMessage)
  | .liveOrm ms => some (ms.map OrmMessageRef.value)
  | .plainValues _ => none

/-- The locals captured by the `generate_stream` closure before the stream
opens (`interview_message.py` lines 269-282): the phase label `current_round`,
the live `messages` list loaded in the request db session, and the plain-value
copy `messages_copy` built from it. -/
structure StreamClosure where
  current_round : String
  messages : List OrmMessageRef
  messages_copy : List MessageDict
deriving DecidableEq, Repr

/-- Lines 277-282 of `interview_message.py`: capture `current_round` and build
`messages_copy` from the loaded `messages`. -/
def mkStreamClosure (current_round : String) (messages : List OrmMessageRef) :
    StreamClosure :=
  { current_round := current_round
    messages := messages
    messages_copy := messages.map (fun msg =>
      { role := msg.value.role, content := msg.value.content, round := msg.value.round }) }

/-- The second argument of the call to `should_transition_to_next_round` inside
`generate_stream` (`interview_message.py` line 322): the live `messages` list. -/
def generate_stream_transition_arg (c : StreamClosure) : PassedMessages :=
  .liveOrm c.messages

/-- Modelled from the spec: the argument the spec says the post-stream
transition decision is evaluated against — the pre-stream plain-value snapshot
`messages_copy` (role/content/round dicts, no live object references). -/
def snapshot_transition_arg (c : StreamClosure) : PassedMessages :=
  .plainValues c.messages_copy

/-- One SSE event of the streaming endpoint. -/
inductive SSEEvent where
  | start : SSEEvent
  | chunk (content : String) : SSEEvent
  | endEv (message_id : Nat) (transition : Bool) (next_round : Option String) : SSEEvent
  | errorEv (message : String) : SSEEvent
deriving DecidableEq, Repr

/-- `end` and `error` are the terminal event types. -/
def SSEEvent.isTerminal : SSEEvent → Bool
  | .endEv _ _ _ => true
  | .errorEv _ => true
  | _ => false

/-- Outcome of iterating `client.chat_stream`: either every chunk arrives, or
the provider raises after yielding a prefix of the chunks. -/
inductive ChatStreamOutcome where
  | complete (chunks : List String)
  | raisedAfter (chunks : List String) (err : String)
deriving DecidableEq, Repr

/-- Outcome of the persistence work inside the fresh db session (message
insert, optional round transition, commit): success with the new message id,
or an exception. -/
inductive PersistOutcome where
  | ok (message_id : Nat)
  | raised (err : String)
deriving DecidableEq, Repr

/-- Transaction state of the fresh `AsyncSessionLocal()` context at the end of
the generator. -/
inductive TxState where
  | active : TxState
  | committedTx : TxState
  | rolledBack : TxState
deriving DecidableEq, Repr

/-- Result of one full run of the SSE generator: the emitted event sequence and
the final transaction state of the fresh db session (`none` when that session
was never opened). -/
structure StreamRun where
  events : List SSEEvent
  freshTx : Option TxState
deriving DecidableEq, Repr

/-- The `generate_stream` async generator of `send_message_stream`
(`interview_message.py` lines 284-366). `clientInit` is the outcome of
`AIClientFactory.get_client`, `streamOutcome` the provider stream, `lookup` the
re-fetch of the session by id inside the fresh db session, and `persist` the
outcome of the db writes. Every exception path is the corresponding `except`
handler's `yield`; the generator never propagates an exception. -/
def generate_stream (c : StreamClosure) (clientInit : Except String Unit)
    (streamOutcome : ChatStreamOutcome) (lookup : Option InterviewSession)
    (persist : PersistOutcome) : StreamRun :=
  match clientInit with
  | .error e => { events := [.errorEv e], freshTx := none }
  | .ok _ =>
    match streamOutcome with
    | .raisedAfter chunks e =>
        { events := .start :: chunks.map SSEEvent.chunk ++ [.errorEv e], freshTx := none }
    | .complete chunks =>
      let full_response := String.join chunks
      let streamed := SSEEvent.start :: chunks.map SSEEvent.chunk
      match lookup with
      | none =>
          { events := streamed ++ [.errorEv "Session not found"], freshTx := some .active }
      | some current_session =>
        match (generate_stream_transition_arg c).attrValues with
        | none =>
            { events := streamed ++ [.errorEv "Database error: AttributeError"]
              freshTx := some .rolledBack }
        | some transition_messages =>
          let sr := should_transition_to_next_round current_session transition_messages
            (some full_response)
          match persist with
          | .raised e =>
              { events := streamed ++ [.errorEv ("Database error: " ++ e)]
                freshTx := some .rolledBack }
          | .ok message_id =>
              { events := streamed ++
                  [.endEv message_id sr.1 (if sr.1 then some sr.2 else none)]
                freshTx := some .committedTx }

theorem listIndex_eq_none_of_not_mem (l : List String) (x : String) (h : x ∉ l) :
    listIndex l x = none := by
  induction l with
  | nil => rfl
  | cons a as ih =>
      rw [List.mem_cons, not_or] at h
      simp only [listIndex]
      rw [if_neg (fun hax => h.1 hax.symm), ih h.2]
      rfl

theorem listIndex_qa : listIndex INTERVIEW_ROUNDS "qa" = some 2 := by decide

theorem listIndex_opening : listIndex INTERVIEW_ROUNDS "opening" = some 0 := by decide

/-- C4: in phase `qa`, once the count of user-role messages tagged round `qa`
reaches 10 (the phase's max), `should_transition_to_next_round` returns
`(true, "reverse_qa")` for every `ai_response`, including `none`. -/
theorem qa_user_cap_forces_reverse_qa (s : InterviewSession)
    (msgs : List InterviewMessage) (ai : Option String)
    (hr : s.current_round = "qa")
    (hc : 10 ≤ msgs.countP (fun m => m.role == "user" && m.round == "qa")) :
    should_transition_to_next_round s msgs ai = (true, "reverse_qa") := by
  unfold should_transition_to_next_round
  rw [hr]
  simp only [listIndex_qa]
  rw [if_neg (by decide : ¬ (INTERVIEW_ROUNDS.length - 1 ≤ 2))]
  split
  · rfl
  · rw [if_pos ⟨hc, by decide⟩]
    rfl

/-- C4 witness: a concrete `qa` session with ten user messages and no AI reply. -/
theorem qa_user_cap_witness :
    (InterviewSession.mk 1 1 "ongoing" "qa").current_round = "qa"
    ∧ 10 ≤ (List.replicate 10 (InterviewMessage.mk "user" "答" "qa" none)).countP
        (fun m => m.role == "user" && m.round == "qa")
    ∧ should_transition_to_next_round ⟨1, 1, "ongoing", "qa"⟩
        (List.replicate 10 ⟨"user", "答", "qa", none⟩) none = (true, "reverse_qa") :=
  ⟨rfl, by decide,
    qa_user_cap_forces_reverse_qa ⟨1, 1, "ongoing", "qa"⟩
      (List.replicate 10 ⟨"user", "答", "qa", none⟩) none rfl (by decide)⟩

/-- C5: in phase `opening`, any AI reply containing the cue substring
"请开始你的自我介绍" makes `should_transition_to_next_round` return
`(true, "self_intro")`, for every message list (including the empty one). -/
theorem opening_cue_triggers_self_intro (s : InterviewSession)
    (msgs : List InterviewMessage) (ai : String)
    (hr : s.current_round = "opening")
    (hcue : strContains ai "请开始你的自我介绍" = true) :
    should_transition_to_next_round s msgs (some ai) = (true, "self_intro") := by
  have hne : (ai == "") = false := by
    cases hb : ai == ""
    · rfl
    · exfalso
      have : ai = "" := by exact eq_of_beq hb
      subst this
      exact absurd hcue (by decide)
  unfold should_transition_to_next_round
  rw [hr]
  simp only [listIndex_opening]
  rw [if_neg (by decide : ¬ (INTERVIEW_ROUNDS.length - 1 ≤ 0))]
  rw [if_pos]
  · rfl
  · simp only [optStrTruthy, hne, Bool.not_false, Bool.true_and, Option.getD_some]
    rw [List.any_eq_true]
    exact ⟨"请开始你的自我介绍", by decide, hcue⟩

/-- C5 witness: an empty message list and a concrete cue-carrying reply. -/
theorem opening_cue_witness :
    (InterviewSession.mk 1 1 "ongoing" "opening").current_round = "opening"
    ∧ strContains "你好！请开始你的自我介绍。" "请开始你的自我介绍" = true
    ∧ should_transition_to_next_round ⟨1, 1, "ongoing", "opening"⟩ []
        (some "你好！请开始你的自我介绍。") = (true, "self_intro") :=
  ⟨rfl, by decide,
    opening_cue_triggers_self_intro ⟨1, 1, "ongoing", "opening"⟩ []
      "你好！请开始你的自我介绍。" rfl (by decide)⟩

/-- C10: for a `current_round` outside the five-phase sequence,
`should_transition_to_next_round` is total and returns
`(false, current_round)`, while `get_round_progress` hits the unguarded
`rounds.index` lookup and raises (`none`). -/
theorem unknown_round_safe_no_transition (s : InterviewSession)
    (msgs : List InterviewMessage) (ai : Option String)
    (h : s.current_round ∉ INTERVIEW_ROUNDS) :
    should_transition_to_next_round s msgs ai = (false, s.current_round)
    ∧ get_round_progress s msgs = none := by
  have hidx := listIndex_eq_none_of_not_mem INTERVIEW_ROUNDS s.current_round h
  constructor
  · unfold should_transition_to_next_round
    simp only [hidx]
  · unfold get_round_progress
    simp only [hidx]

/-- C10 witness: the unknown round label "paused". -/
theorem unknown_round_witness :
    "paused" ∉ INTERVIEW_ROUNDS
    ∧ (should_transition_to_next_round ⟨1, 1, "ongoing", "paused"⟩ [] none
          = (false, "paused")
        ∧ get_round_progress ⟨1, 1, "ongoing", "paused"⟩ [] = none) :=
  ⟨by decide,
    unknown_round_safe_no_transition ⟨1, 1, "ongoing", "paused"⟩ [] none (by decide)⟩

theorem filter_filter_countP (msgs : List InterviewMessage)
    (p q : InterviewMessage → Bool) :
    ((msgs.filter q).filter p).length = msgs.countP (fun m => p m && q m) := by
  rw [← List.countP_eq_length_filter, List.countP_filter]

/-- C6: the `progress` field of `get_round_progress` is the capped percentage
`min 100 (user_count * 100 / max)` when the phase's max is positive, else 100
when an AI message exists in the phase and 0 otherwise (counts taken over
messages whose `round` equals the session's current round). -/
theorem round_progress_percentage (s : InterviewSession)
    (msgs : List InterviewMessage) (p : RoundProgress)
    (h : get_round_progress s msgs = some p) :
    p.progress =
      if 0 < ((ROUND_MESSAGE_LIMITS s.current_round).getD (0, 0)).2 then
        min 100 ((msgs.countP (fun m => m.role == "user" && m.round == s.current_round)) * 100 /
          ((ROUND_MESSAGE_LIMITS s.current_round).getD (0, 0)).2)
      else if 0 < msgs.countP (fun m => m.role == "ai" && m.round == s.current_round) then 100
      else 0 := by
  unfold get_round_progress at h
  rcases hidx : listIndex INTERVIEW_ROUNDS s.current_round with _ | i
  · simp only [hidx] at h
    exact Option.noConfusion h
  · simp only [hidx, Option.some.injEq] at h
    subst h
    simp only [filter_filter_countP]

/-- C6 witness: a `qa` session with one user and one AI message in the phase. -/
theorem round_progress_percentage_witness :
    get_round_progress ⟨1, 1, "ongoing", "qa"⟩
        [⟨"user", "答", "qa", none⟩, ⟨"ai", "问", "qa", none⟩]
      = some ⟨"qa", "核心问答", 3, 5, 1, 1, 5, 10, 10, false⟩
    ∧ (⟨"qa", "核心问答", 3, 5, 1, 1, 5, 10, 10, false⟩ : RoundProgress).progress =
      if 0 < ((ROUND_MESSAGE_LIMITS "qa").getD (0, 0)).2 then
        min 100 (([⟨"user", "答", "qa", none⟩, ⟨"ai", "问", "qa", none⟩] :
            List InterviewMessage).countP (fun m => m.role == "user" && m.round == "qa") * 100 /
          ((ROUND_MESSAGE_LIMITS "qa").getD (0, 0)).2)
      else if 0 < ([⟨"user", "答", "qa", none⟩, ⟨"ai", "问", "qa", none⟩] :
          List InterviewMessage).countP (fun m => m.role == "ai" && m.round == "qa") then 100
      else 0 :=
  ⟨by decide,
    round_progress_percentage ⟨1, 1, "ongoing", "qa"⟩
      [⟨"user", "答", "qa", none⟩, ⟨"ai", "问", "qa", none⟩]
      ⟨"qa", "核心问答", 3, 5, 1, 1, 5, 10, 10, false⟩ (by decide)⟩

/-- C8: the `can_transition` field of `get_round_progress` holds exactly when
the count of user-role messages in the current phase has reached the phase's
`min_messages`. -/
theorem can_transition_iff_min_reached (s : InterviewSession)
    (msgs : List InterviewMessage) (p : RoundProgress)
    (h : get_round_progress s msgs = some p) :
    p.can_transition = true ↔
      ((ROUND_MESSAGE_LIMITS s.current_round).getD (0, 0)).1 ≤
        msgs.countP (fun m => m.role == "user" && m.round == s.current_round) := by
  unfold get_round_progress at h
  rcases hidx : listIndex INTERVIEW_ROUNDS s.current_round with _ | i
  · simp only [hidx] at h
    exact Option.noConfusion h
  · simp only [hidx, Option.some.injEq] at h
    subst h
    simp only [filter_filter_countP, decide_eq_true_eq]

/-- C8 witness: an `opening` session with an empty message list can already
transition (min is 0). -/
theorem can_transition_witness :
    get_round_progress ⟨1, 1, "ongoing", "opening"⟩ []
      = some ⟨"opening", "开场白", 1, 5, 0, 0, 0, 0, 0, true⟩
    ∧ (⟨"opening", "开场白", 1, 5, 0, 0, 0, 0, 0, true⟩ : RoundProgress).can_transition = true :=
  ⟨by decide,
    (can_transition_iff_min_reached ⟨1, 1, "ongoing", "opening"⟩ []
      ⟨"opening", "开场白", 1, 5, 0, 0, 0, 0, 0, true⟩ (by decide)).mpr (by decide)⟩

/-- C7: a transition from the phase at index `i` always lands on the phase at
index `i + 1`, never skipping, and on the terminal phase `closing` it is a
no-op returning the session unchanged (no error). -/
theorem transition_advances_one_phase_or_noop (s : InterviewSession) :
    (∀ (i : Nat) (r r' : String),
        INTERVIEW_ROUNDS.get? i = some r →
        INTERVIEW_ROUNDS.get? (i + 1) = some r' →
        s.current_round = r →
        transition_to_next_round s = some { s with current_round := r' })
    ∧ (s.current_round = "closing" → transition_to_next_round s = some s) := by
  constructor
  · intro i r r' h1 h2 hr
    match i with
    | 0 =>
        cases h1; cases h2
        unfold transition_to_next_round
        rw [hr]
        rfl
    | 1 =>
        cases h1; cases h2
        unfold transition_to_next_round
        rw [hr]
        rfl
    | 2 =>
        cases h1; cases h2
        unfold transition_to_next_round
        rw [hr]
        rfl
    | 3 =>
        cases h1; cases h2
        unfold transition_to_next_round
        rw [hr]
        rfl
    | n + 4 =>
        exfalso
        have : INTERVIEW_ROUNDS.get? (n + 5) = none := by
          apply List.get?_eq_none.mpr
          simp [INTERVIEW_ROUNDS]
        rw [this] at h2
        exact Option.noConfusion h2
  · intro hr
    unfold transition_to_next_round
    rw [hr]
    rfl

/-- C7 witness: `qa` advances exactly to `reverse_qa`; `closing` is a no-op. -/
theorem transition_advances_witness :
    transition_to_next_round ⟨1, 2, "ongoing", "qa"⟩ = some ⟨1, 2, "ongoing", "reverse_qa"⟩
    ∧ transition_to_next_round ⟨1, 2, "ongoing", "closing"⟩ = some ⟨1, 2, "ongoing", "closing"⟩ :=
  ⟨(transition_advances_one_phase_or_noop ⟨1, 2, "ongoing", "qa"⟩).1
      2 "qa" "reverse_qa" rfl rfl rfl,
    (transition_advances_one_phase_or_noop ⟨1, 2, "ongoing", "closing"⟩).2 rfl⟩

/-- C9: `build_full_prompt` returns `n + 1` entries: a system entry first,
then one entry per prior message in order, role `assistant` for `ai` messages
and `user` otherwise, carrying the original content unmodified. -/
theorem build_full_prompt_shape (s : InterviewSession) (system_prompt : String)
    (msgs : List InterviewMessage) (h : s.current_round ∈ INTERVIEW_ROUNDS) :
    ∃ ps, build_full_prompt s system_prompt msgs = some ps ∧
      ps.length = msgs.length + 1 ∧
      (∃ sys, ps.head? = some { role := "system", content := sys }) ∧
      ∀ (i : Nat) (m : InterviewMessage), msgs.get? i = some m →
        ps.get? (i + 1) = some
          { role := if m.role == "ai" then "assistant" else "user"
            content := m.content } := by
  obtain ⟨j, hj⟩ : ∃ j, listIndex INTERVIEW_ROUNDS s.current_round = some j := by
    revert h
    generalize INTERVIEW_ROUNDS = l
    intro h
    induction l with
    | nil => exact absurd h (List.not_mem_nil _)
    | cons a as ih =>
        by_cases ha : a = s.current_round
        · exact ⟨0, by simp [listIndex, ha]⟩
        · have hmem : s.current_round ∈ as := by
            rcases List.mem_cons.mp h with h' | h'
            · exact absurd h'.symm ha
            · exact h'
          obtain ⟨j, hj⟩ := ih hmem
          exact ⟨j + 1, by simp [listIndex, ha, hj]⟩
  have hbp : build_full_prompt s system_prompt msgs =
      some ({ role := "system", content :=
          system_prompt ++ "\n\n## 当前轮次指令\n" ++ get_round_instruction s.current_round ++
            "\n\n## 轮次进度\n当前是第 " ++ toString (j + 1) ++ " / " ++
            toString INTERVIEW_ROUNDS.length ++ " 轮\n" } ::
        msgs.map (fun msg =>
          { role := if msg.role == "ai" then "assistant" else "user"
            content := msg.content })) := by
    unfold build_full_prompt
    simp only [hj]
  refine ⟨_, hbp, ?_, ⟨_, rfl⟩, ?_⟩
  · simp
  · intro i m hm
    rw [List.get?_cons_succ]
    rw [List.get?_eq_getElem?] at hm ⊢
    rw [List.getElem?_map, hm]
    rfl

/-- C9 witness: one `ai` and one `user` prior message in a `self_intro` session. -/
theorem build_full_prompt_witness :
    (InterviewSession.mk 1 1 "ongoing" "self_intro").current_round ∈ INTERVIEW_ROUNDS
    ∧ ∃ ps, build_full_prompt ⟨1, 1, "ongoing", "self_intro"⟩ "系统提示"
          [⟨"ai", "请自我介绍", "self_intro", none⟩, ⟨"user", "我是……", "self_intro", none⟩]
        = some ps ∧
      ps.length = ([⟨"ai", "请自我介绍", "self_intro", none⟩,
          ⟨"user", "我是……", "self_intro", none⟩] : List InterviewMessage).length + 1 ∧
      (∃ sys, ps.head? = some { role := "system", content := sys }) ∧
      ∀ (i : Nat) (m : InterviewMessage),
        ([⟨"ai", "请自我介绍", "self_intro", none⟩,
            ⟨"user", "我是……", "self_intro", none⟩] : List InterviewMessage).get? i = some m →
        ps.get? (i + 1) = some
          { role := if m.role == "ai" then "assistant" else "user"
            content := m.content } :=
  ⟨by decide,
    build_full_prompt_shape ⟨1, 1, "ongoing", "self_intro"⟩ "系统提示"
      [⟨"ai", "请自我介绍", "self_intro", none⟩, ⟨"user", "我是……", "self_intro", none⟩]
      (by decide)⟩

/-- C1: the streaming turn does not pass the plain-value snapshot to
`should_transition_to_next_round`. `generate_stream` passes the live ORM
`messages` list captured before the stream (`interview_message.py` line 322);
the plain-value copy `messages_copy` (lines 279-282) is computed but never
used. At a streaming turn with one prior message the passed argument is the
live list and differs from the snapshot copy. -/
theorem stream_transition_arg_is_live_orm_list :
    (∀ (r : String) (msgs : List OrmMessageRef),
        generate_stream_transition_arg (mkStreamClosure r msgs) = .liveOrm msgs)
    ∧ generate_stream_transition_arg
        (mkStreamClosure "opening" [⟨⟨"user", "你好", "opening", none⟩, 1⟩])
      ≠ snapshot_transition_arg
        (mkStreamClosure "opening" [⟨⟨"user", "你好", "opening", none⟩, 1⟩]) :=
  ⟨fun _ _ => rfl, by decide⟩

theorem isTerminal_start : SSEEvent.start.isTerminal = false := rfl

theorem countP_terminal_map_chunk (l : List String) :
    (l.map SSEEvent.chunk).countP SSEEvent.isTerminal = 0 := by
  induction l with
  | nil => rfl
  | cons a as ih => simp [List.countP_cons, SSEEvent.isTerminal, ih]

theorem generate_stream_shape (c : StreamClosure) (ci : Except String Unit)
    (so : ChatStreamOutcome) (lk : Option InterviewSession) (pr : PersistOutcome) :
    (∃ e, (generate_stream c ci so lk pr).events = [SSEEvent.errorEv e])
    ∨ (∃ (chunks : List String) (t : SSEEvent),
        (generate_stream c ci so lk pr).events
          = SSEEvent.start :: chunks.map SSEEvent.chunk ++ [t]
        ∧ t.isTerminal = true) := by
  rcases ci with e | u
  · exact .inl ⟨e, rfl⟩
  · rcases so with chunks | ⟨chunks, e⟩
    · rcases lk with _ | sess
      · exact .inr ⟨chunks, _, rfl, rfl⟩
      · rcases pr with mid | err
        · exact .inr ⟨chunks, _, rfl, rfl⟩
        · exact .inr ⟨chunks, _, rfl, rfl⟩
    · exact .inr ⟨chunks, _, rfl, rfl⟩

/-- C2: every run of the SSE generator emits exactly one terminal event
(`end` or `error`), always as the last emitted event (the generator itself is a
total function — no exception escapes it); a session deleted mid-stream yields
the single terminal "Session not found" error event, and a persistence
exception leaves the fresh db session rolled back and yields a terminal
database-error event. -/
theorem generate_stream_exactly_one_terminal (c : StreamClosure)
    (ci : Except String Unit) (so : ChatStreamOutcome)
    (lk : Option InterviewSession) (pr : PersistOutcome) :
    ((generate_stream c ci so lk pr).events.countP SSEEvent.isTerminal = 1)
    ∧ (∀ ev, (generate_stream c ci so lk pr).events.getLast? = some ev →
        ev.isTerminal = true)
    ∧ (∀ chunks, ci = .ok () → so = .complete chunks → lk = none →
        (generate_stream c ci so lk pr).events.getLast?
          = some (.errorEv "Session not found"))
    ∧ (∀ err, pr = .raised err → ci = .ok () →
        ∀ chunks, so = .complete chunks → lk ≠ none →
          (generate_stream c ci so lk pr).freshTx = some .rolledBack
          ∧ ∃ m, (generate_stream c ci so lk pr).events.getLast?
              = some (.errorEv m)) := by
  refine ⟨?_, ?_, ?_, ?_⟩
  · rcases generate_stream_shape c ci so lk pr with ⟨e, he⟩ | ⟨chunks, t, hev, ht⟩
    · rw [he]
      simp [List.countP_cons, SSEEvent.isTerminal]
    · rw [hev]
      simp [List.countP_append, List.countP_cons, countP_terminal_map_chunk,
        isTerminal_start, ht]
      intro a _
      rfl
  · intro ev hl
    rcases generate_stream_shape c ci so lk pr with ⟨e, he⟩ | ⟨chunks, t, hev, ht⟩
    · rw [he] at hl
      simp only [List.getLast?_singleton, Option.some.injEq] at hl
      rw [← hl]
      rfl
    · rw [hev, List.getLast?_concat] at hl
      simp only [Option.some.injEq] at hl
      rw [← hl]
      exact ht
  · intro chunks hci hso hlk
    subst hci; subst hso; subst hlk
    rw [show (generate_stream c (.ok ()) (.complete chunks) none pr).events
        = (SSEEvent.start :: chunks.map SSEEvent.chunk)
          ++ [SSEEvent.errorEv "Session not found"] from rfl]
    exact List.getLast?_concat _
  · intro err hpr hci chunks hso hlk
    subst hpr; subst hci; subst hso
    rcases lk with _ | sess
    · exact absurd rfl hlk
    · refine ⟨rfl, "Database error: " ++ err, ?_⟩
      rw [show (generate_stream c (.ok ()) (.complete chunks) (some sess)
            (.raised err)).events
          = (SSEEvent.start :: chunks.map SSEEvent.chunk)
            ++ [SSEEvent.errorEv ("Database error: " ++ err)] from rfl]
      exact List.getLast?_concat _

/-- C2 witness: the theorem instantiated at a concrete run (two chunks, the
session vanished mid-stream). -/
theorem generate_stream_terminal_witness :
    ((generate_stream (mkStreamClosure "opening" []) (.ok ())
        (.complete ["你", "好"]) none (.ok 1)).events.countP SSEEvent.isTerminal = 1)
    ∧ (∀ ev, (generate_stream (mkStreamClosure "opening" []) (.ok ())
          (.complete ["你", "好"]) none (.ok 1)).events.getLast? = some ev →
        ev.isTerminal = true)
    ∧ (∀ chunks, (Except.ok () : Except String Unit) = .ok () →
        ChatStreamOutcome.complete ["你", "好"] = .complete chunks →
        (none : Option InterviewSession) = none →
        (generate_stream (mkStreamClosure "opening" []) (.ok ())
            (.complete ["你", "好"]) none (.ok 1)).events.getLast?
          = some (.errorEv "Session not found"))
    ∧ (∀ err, PersistOutcome.ok 1 = .raised err →
        (Except.ok () : Except String Unit) = .ok () →
        ∀ chunks, ChatStreamOutcome.complete ["你", "好"] = .complete chunks →
          (none : Option InterviewSession) ≠ none →
          (generate_stream (mkStreamClosure "opening" []) (.ok ())
              (.complete ["你", "好"]) none (.ok 1)).freshTx = some .rolledBack
          ∧ ∃ m, (generate_stream (mkStreamClosure "opening" []) (.ok ())
              (.complete ["你", "好"]) none (.ok 1)).events.getLast?
                = some (.errorEv m)) :=
  generate_stream_exactly_one_terminal (mkStreamClosure "opening" []) (.ok ())
    (.complete ["你", "好"]) none (.ok 1)

/-- C3: when `chat_complete` raises in the non-streaming turn, the user's
message was already committed by `InterviewMessageService.create` and survives
the `get_db` rollback, the session row is untouched (`status` still "ongoing",
`current_round` unchanged), and the HTTPException surfaces to the caller. -/
theorem failed_llm_preserves_user_message (db0 : Db) (sid uid : Nat)
    (content e : String)
    (hcons : db0.pending = db0.committed)
    (hid : db0.pending.session.id = sid)
    (huser : db0.pending.session.user_id = uid)
    (hstatus : db0.pending.session.status = "ongoing") :
    (send_message_endpoint db0 sid content uid true (.error e)).1
        = .error ("AI 响应失败: " ++ e)
    ∧ (send_message_endpoint db0 sid content uid true (.error e)).2.committed.messages
        = db0.committed.messages ++
          [{ role := "user", content := content,
             round := db0.committed.session.current_round, meta_info := none }]
    ∧ (send_message_endpoint db0 sid content uid true (.error e)).2.committed.session.status
        = "ongoing"
    ∧ (send_message_endpoint db0 sid content uid true (.error e)).2.committed.session.current_round
        = db0.committed.session.current_round := by
  have hrun : send_message db0 sid content uid true (.error e)
      = (.error ("AI 响应失败: " ++ e),
          Db.commit { db0 with pending :=
            { db0.pending with messages := db0.pending.messages ++
              [{ role := "user", content := content,
                 round := db0.pending.session.current_round, meta_info := none }] } }) := by
    unfold send_message
    rw [if_pos hid]
    simp only
    rw [if_neg (fun hne => hne huser), if_neg (fun hne => hne hstatus)]
    rw [if_neg (fun h => h trivial)]
    rfl
  unfold send_message_endpoint
  rw [hrun]
  simp only [Db.commit, Db.rollback, hcons]
  exact ⟨trivial, trivial, hcons ▸ hstatus, trivial⟩

/-- C3 witness: a concrete ongoing `qa` session whose LLM call raises. -/
theorem failed_llm_witness :
    (Db.mk ⟨[], ⟨5, 7, "ongoing", "qa"⟩⟩ ⟨[], ⟨5, 7, "ongoing", "qa"⟩⟩).pending
        = (Db.mk ⟨[], ⟨5, 7, "ongoing", "qa"⟩⟩ ⟨[], ⟨5, 7, "ongoing", "qa"⟩⟩).committed
    ∧ ((send_message_endpoint ⟨⟨[], ⟨5, 7, "ongoing", "qa"⟩⟩, ⟨[], ⟨5, 7, "ongoing", "qa"⟩⟩⟩
          5 "你好" 7 true (.error "boom")).1 = .error ("AI 响应失败: " ++ "boom")
        ∧ (send_message_endpoint ⟨⟨[], ⟨5, 7, "ongoing", "qa"⟩⟩, ⟨[], ⟨5, 7, "ongoing", "qa"⟩⟩⟩
            5 "你好" 7 true (.error "boom")).2.committed.messages
          = [] ++ [{ role := "user", content := "你好", round := "qa", meta_info := none }]
        ∧ (send_message_endpoint ⟨⟨[], ⟨5, 7, "ongoing", "qa"⟩⟩, ⟨[], ⟨5, 7, "ongoing", "qa"⟩⟩⟩
            5 "你好" 7 true (.error "boom")).2.committed.session.status = "ongoing"
        ∧ (send_message_endpoint ⟨⟨[], ⟨5, 7, "ongoing", "qa"⟩⟩, ⟨[], ⟨5, 7, "ongoing", "qa"⟩⟩⟩
            5 "你好" 7 true (.error "boom")).2.committed.session.current_round = "qa") :=
  ⟨rfl,
    failed_llm_preserves_user_message
      ⟨⟨[], ⟨5, 7, "ongoing", "qa"⟩⟩, ⟨[], ⟨5, 7, "ongoing", "qa"⟩⟩⟩
      5 7 "你好" "boom" rfl rfl rfl rfl⟩

end MoonLight
